import Mathlib

/-!
# libparistraceroute: typed fields and the paris-traceroute front end

A shallow embedding of `libparistraceroute/field.c` and of
`paris-traceroute/paris-traceroute.c`.

Conventions of the embedding.

* Machine integers are natural numbers (or integers for `int`) with the
  reduction modulo `2^w` written where the C type truncates.
* A pointer to memory (`char *`, `void *`) is the list of the bytes stored from
  the pointed address on; bytes past the end of the list read as zero.
* Library calls whose code is outside the two files are inputs of the model.
-/

namespace Paris

/-! ## field.c -/

/-- Modelled from the spec: the enumeration `fieldtype_t` of `field.h`. The five
enumerators named in `field.c` are kept; `TYPE_OTHER` stands for every other value
of the enumeration (the spec lists Bytes and Address), i.e. whatever reaches the
`default:` label of a `switch`. -/
inductive fieldtype_t where
  | TYPE_INT4
  | TYPE_INT8
  | TYPE_INT16
  | TYPE_INT32
  | TYPE_STRING
  | TYPE_OTHER (code : Nat)
  deriving DecidableEq, Repr

open fieldtype_t

/-- Modelled from the spec: the union `value` of `field_t` (`field.h`), as the
member that was last stored. -/
inductive value_t where
  | int4 (v : Nat)
  | int8 (v : Nat)
  | int16 (v : Nat)
  | int32 (v : Nat)
  | string (s : List Nat)
  deriving DecidableEq, Repr

/-- Modelled from the spec: the structure `field_t` of `field.h`: a key, a value and
a type tag. -/
structure field_t where
  key : List Nat
  value : value_t
  type : fieldtype_t
  deriving DecidableEq, Repr

/-- Byte order of the host. -/
inductive endian where
  | little
  | big
  deriving DecidableEq, Repr

/-- The byte at offset `i` of the memory a pointer designates. -/
def byte_at (m : List Nat) (i : Nat) : Nat := m.getD i 0 % 256

/-- The C string stored at a `char *`: the bytes before the first NUL. -/
def c_string (m : List Nat) : List Nat :=
  (m.map (fun b => b % 256)).takeWhile (fun b => b != 0)

/-- The C library call `strdup`: a copy of the C string (allocation succeeding). -/
def strdup (m : List Nat) : List Nat := c_string m

/-- The load `*(uint8_t*)value`. -/
def load_uint8 (m : List Nat) : Nat := byte_at m 0

/-- The load `*(uint16_t*)value` on a host of the given byte order. -/
def load_uint16 (host : endian) (m : List Nat) : Nat :=
  match host with
  | endian.little => byte_at m 0 + 256 * byte_at m 1
  | endian.big => 256 * byte_at m 0 + byte_at m 1

/-- The load `*(uint32_t*)value` on a host of the given byte order. -/
def load_uint32 (host : endian) (m : List Nat) : Nat :=
  match host with
  | endian.little =>
      byte_at m 0 + 256 * byte_at m 1 + 65536 * byte_at m 2 + 16777216 * byte_at m 3
  | endian.big =>
      16777216 * byte_at m 0 + 65536 * byte_at m 1 + 256 * byte_at m 2 + byte_at m 3

/-- The C library call `ntohs`: identity on a big-endian host, byte swap of the 16-bit
value on a little-endian one. -/
def ntohs (host : endian) (x : Nat) : Nat :=
  match host with
  | endian.big => x % 65536
  | endian.little => (x % 256) * 256 + (x / 256) % 256

/-- The C library call `ntohl`: identity on a big-endian host, byte swap of the 32-bit
value on a little-endian one. -/
def ntohl (host : endian) (x : Nat) : Nat :=
  match host with
  | endian.big => x % 4294967296
  | endian.little =>
      (x % 256) * 16777216 + ((x / 256) % 256) * 65536
        + ((x / 65536) % 256) * 256 + (x / 16777216) % 256

/-- Function `field_create_int32`: `malloc` tells whether the allocation of the field
succeeded; the parameter of type `uint32_t` truncates the value. -/
def field_create_int32 (malloc : Bool) (key : List Nat) (value : Nat) : Option field_t :=
  if malloc then
    some { key := strdup key, value := value_t.int32 (value % 4294967296), type := TYPE_INT32 }
  else none

/-- Function `field_create_int16`. -/
def field_create_int16 (malloc : Bool) (key : List Nat) (value : Nat) : Option field_t :=
  if malloc then
    some { key := strdup key, value := value_t.int16 (value % 65536), type := TYPE_INT16 }
  else none

/-- Function `field_create_int8`. -/
def field_create_int8 (malloc : Bool) (key : List Nat) (value : Nat) : Option field_t :=
  if malloc then
    some { key := strdup key, value := value_t.int8 (value % 256), type := TYPE_INT8 }
  else none

/-- Function `field_create_string`. -/
def field_create_string (malloc : Bool) (key : List Nat) (value : List Nat) : Option field_t :=
  if malloc then
    some { key := strdup key, value := value_t.string (strdup value), type := TYPE_STRING }
  else none

/-- Function `field_create`: `value` is the memory the `void *` points to, read with the width
of the requested type; `none` is the null pointer. -/
def field_create (host : endian) (malloc : Bool) (type : fieldtype_t) (key : List Nat)
    (value : List Nat) : Option field_t :=
  match type with
  | TYPE_INT8 => field_create_int8 malloc key (load_uint8 value)
  | TYPE_INT16 => field_create_int16 malloc key (load_uint16 host value)
  | TYPE_INT32 => field_create_int32 malloc key (load_uint32 host value)
  | TYPE_STRING => field_create_string malloc key value
  | TYPE_INT4 => none
  | TYPE_OTHER _ => none

/-- Function `field_create_from_network`: as `field_create`, the 16- and 32-bit loads going
through `ntohs` and `ntohl`. -/
def field_create_from_network (host : endian) (malloc : Bool) (type : fieldtype_t)
    (key : List Nat) (value : List Nat) : Option field_t :=
  match type with
  | TYPE_INT8 => field_create_int8 malloc key (load_uint8 value)
  | TYPE_INT16 => field_create_int16 malloc key (ntohs host (load_uint16 host value))
  | TYPE_INT32 => field_create_int32 malloc key (ntohl host (load_uint32 host value))
  | TYPE_STRING => field_create_string malloc key value
  | TYPE_INT4 => none
  | TYPE_OTHER _ => none

/-- Function `field_get_type_size`. -/
def field_get_type_size (type : fieldtype_t) : Nat :=
  match type with
  | TYPE_INT8 => 1
  | TYPE_INT16 => 2
  | TYPE_INT32 => 4
  | _ => 0

/-- Function `field_get_size`. -/
def field_get_size (field : field_t) : Nat := field_get_type_size field.type

/-- Conversion of a 32-bit unsigned result to `int` (two's complement, 32 bits). -/
def to_int32 (x : Nat) : Int :=
  if x % 4294967296 < 2147483648 then ((x % 4294967296 : Nat) : Int)
  else ((x % 4294967296 : Nat) : Int) - 4294967296

/-- The subtraction `uint32_t - uint32_t`, computed modulo `2^32`. -/
def sub_uint32 (a b : Nat) : Nat := (a % 4294967296 + 4294967296 - b % 4294967296) % 4294967296

/-- Function `field_compare`. The operands of the 4-, 8- and 16-bit subtractions are promoted to
`int`; the 32-bit subtraction is unsigned and its result is converted to `int` on
return. `strcmp` is the C library function. The result is `none` when the member read
from the union is not the one that was stored; a member is read with its width (the
4-bit member `int4` is declared in `field.h`). -/
def field_compare (strcmp : List Nat → List Nat → Int) (field1 field2 : field_t) :
    Option Int :=
  if field1.type ≠ field2.type then some (-2)
  else
    match field1.type with
    | TYPE_INT8 =>
        match field1.value, field2.value with
        | value_t.int8 a, value_t.int8 b => some (((a % 256 : Nat) : Int) - ((b % 256 : Nat) : Int))
        | _, _ => none
    | TYPE_INT16 =>
        match field1.value, field2.value with
        | value_t.int16 a, value_t.int16 b =>
            some (((a % 65536 : Nat) : Int) - ((b % 65536 : Nat) : Int))
        | _, _ => none
    | TYPE_INT32 =>
        match field1.value, field2.value with
        | value_t.int32 a, value_t.int32 b => some (to_int32 (sub_uint32 a b))
        | _, _ => none
    | TYPE_INT4 =>
        match field1.value, field2.value with
        | value_t.int4 a, value_t.int4 b => some (((a % 16 : Nat) : Int) - ((b % 16 : Nat) : Int))
        | _, _ => none
    | TYPE_STRING =>
        match field1.value, field2.value with
        | value_t.string a, value_t.string b => some (strcmp a b)
        | _, _ => none
    | TYPE_OTHER _ => some (-3)

/-! ## paris-traceroute.c: the traceroute handler -/

/-- Modelled from the spec: what `my_traceroute_handler` reads from the
`probe_reply_t` of a `TRACEROUTE_PROBE_REPLY` event through the library (`probe.h`,
`address.h`): the result of `probe_extract(probe, "ttl", &ttl)` (`none` when it returns
false), of `probe_extract(reply, "src_ip", &discovered_ip)`, the host name written by
`address_resolv` (`none` for a null pointer) and the text `printf` gives for the
floating-point delay under `%-5.2lf`. -/
structure probe_reply_t where
  ttl : Option Nat
  src_ip : Option String
  hostname : Option String
  delay : String
  deriving DecidableEq, Repr

/-- Modelled from the spec: the events of `algorithms/traceroute.h`, by their type
tag; a `TRACEROUTE_PROBE_REPLY` carries its probe and reply. `TRACEROUTE_OTHER` stands
for any tag that reaches `default:`. -/
inductive traceroute_event_t where
  | TRACEROUTE_PROBE_REPLY (data : probe_reply_t)
  | TRACEROUTE_STAR
  | TRACEROUTE_ICMP_ERROR
  | TRACEROUTE_TOO_MANY_STARS
  | TRACEROUTE_MAX_TTL_REACHED
  | TRACEROUTE_DESTINATION_REACHED
  | TRACEROUTE_OTHER (code : Nat)
  deriving DecidableEq, Repr

open traceroute_event_t

/-- Number of values of `size_t`, the type of the counter `num_probes_printed`. -/
def SIZE_MODULUS : Nat := 18446744073709551616

/-- Append blanks on the right up to the given width (the `-` flag of `printf`). -/
def pad_right (width : Nat) (s : String) : String :=
  s ++ String.mk (List.replicate (width - s.length) ' ')

/-- The text of `printf("%-2d", ttl)` for a `uint8_t ttl`. -/
def printf_ttl (ttl : Nat) : String := pad_right 2 (toString (ttl % 256))

/-- The text of `printf(" %-16s ", discovered_ip)`. -/
def printf_ip (discovered_ip : String) : String := " " ++ pad_right 16 discovered_ip ++ " "

/-- The outcome events, which are the ones that count as a printed probe. -/
def is_outcome (ev : traceroute_event_t) : Bool :=
  match ev with
  | TRACEROUTE_PROBE_REPLY _ => true
  | TRACEROUTE_STAR => true
  | TRACEROUTE_ICMP_ERROR => true
  | _ => false

/-- The `switch` of `my_traceroute_handler`: the new value of the static counter and the
texts of the `printf` calls, in order. -/
def handler_switch (do_resolv : Bool) (num_probes : Nat) (num_probes_printed : Nat)
    (ev : traceroute_event_t) : Nat × List String :=
  match ev with
  | TRACEROUTE_PROBE_REPLY data =>
      let out_ttl :=
        if num_probes_printed % num_probes = 0 then
          match data.ttl with
          | some ttl => [printf_ttl ttl]
          | none => []
        else []
      let out_ip :=
        match data.src_ip with
        | some discovered_ip =>
            printf_ip discovered_ip ::
              (if do_resolv then
                match data.hostname with
                | some discovered_hostname => ["(" ++ discovered_hostname ++ ")"]
                | none => []
              else [])
        | none => []
      ((num_probes_printed + 1) % SIZE_MODULUS,
        out_ttl ++ out_ip ++ [" (" ++ data.delay ++ "ms) "])
  | TRACEROUTE_STAR => ((num_probes_printed + 1) % SIZE_MODULUS, [" *"])
  | TRACEROUTE_ICMP_ERROR => ((num_probes_printed + 1) % SIZE_MODULUS, [" !"])
  | TRACEROUTE_TOO_MANY_STARS => (num_probes_printed, ["Too many stars\n"])
  | TRACEROUTE_MAX_TTL_REACHED => (num_probes_printed, ["Max ttl reached\n"])
  | TRACEROUTE_DESTINATION_REACHED => (num_probes_printed, ["Destination reached\n"])
  | TRACEROUTE_OTHER _ => (num_probes_printed, [])

/-- Function `my_traceroute_handler`, as a function of the global `do_resolv`, of
`traceroute_options->num_probes`, of the static counter `num_probes_printed` and of the
event: the new counter and the texts printed, one per `printf` call. The result is
`none` when `num_probes` is zero (the remainder is then undefined). -/
def my_traceroute_handler (do_resolv : Bool) (num_probes : Nat) (num_probes_printed : Nat)
    (ev : traceroute_event_t) : Option (Nat × List String) :=
  if num_probes = 0 then none
  else
    let r := handler_switch do_resolv num_probes num_probes_printed ev
    if r.1 % num_probes = 0 then some (r.1, r.2 ++ ["\n"]) else some (r.1, r.2)

/-- The handler called on each event of a list in turn: the final counter and all the
texts printed. -/
def handle_events (do_resolv : Bool) (num_probes : Nat) :
    Nat → List traceroute_event_t → Option (Nat × List String)
  | num_probes_printed, [] => some (num_probes_printed, [])
  | num_probes_printed, ev :: rest =>
      match my_traceroute_handler do_resolv num_probes num_probes_printed ev with
      | none => none
      | some (n, out) =>
          match handle_events do_resolv num_probes n rest with
          | none => none
          | some (m, out_rest) => some (m, out ++ out_rest)

/-- The bytes written on standard output. -/
def stdout_text (out : List String) : String := String.join out

/-! ## paris-traceroute.c: the main program -/

/-- The status `EXIT_SUCCESS` of `stdlib.h`. -/
def EXIT_SUCCESS : Int := 0

/-- The status `EXIT_FAILURE` of `stdlib.h`. -/
def EXIT_FAILURE : Int := 1

/-- The address family `AF_INET` of `sys/socket.h`. -/
def AF_INET : Int := 2

/-- The address family `AF_INET6` of `sys/socket.h`. -/
def AF_INET6 : Int := 10

/-- The constant `UINT16_MAX` of `stdint.h`. -/
def UINT16_MAX : Int := 65535

/-- The table `algorithm_names` (without its terminating null pointer). -/
def algorithm_names : List String := ["paris-traceroute", "mda"]

/-- The table `protocol_names` (without its terminating null pointer). -/
def protocol_names : List String := ["udp"]

/-- The static variables that the command line can change. The two arrays have four
cells: value, minimum, maximum, and the flag telling that the option was given. -/
structure globals_t where
  is_ipv4 : Bool
  is_ipv6 : Bool
  is_udp : Bool
  do_resolv : Bool
  dst_port : List Int
  src_port : List Int
  deriving DecidableEq, Repr

/-- The initial values of the static variables. -/
def globals_init : globals_t :=
  { is_ipv4 := true
    is_ipv6 := false
    is_udp := false
    do_resolv := true
    dst_port := [3000, 0, UINT16_MAX, 0]
    src_port := [3838, 0, UINT16_MAX, 1] }

/-- The bytes of a string literal. -/
def c_str (s : String) : List Nat := s.toList.map Char.toNat

/-- Modelled from the spec: the macro `STR` of `field.h`, the field that
`field_create_string` builds (allocation succeeding). -/
def STR (key : String) (value : String) : field_t :=
  { key := strdup (c_str key), value := value_t.string (strdup (c_str value)), type := TYPE_STRING }

/-- Modelled from the spec: the macro `I16` of `field.h`, the field that
`field_create_int16` builds from the `int` converted to `uint16_t` (allocation
succeeding). -/
def I16 (key : String) (value : Int) : field_t :=
  { key := strdup (c_str key), value := value_t.int16 (Int.toNat (value % 65536)),
    type := TYPE_INT16 }

/-- Modelled from the spec: the probe skeleton of `probe.h`, as the layers installed,
the size of the payload and the fields set. -/
structure probe_t where
  protocols : List String
  payload_size : Nat
  fields : List field_t
  deriving DecidableEq, Repr

/-- Modelled from the spec: `probe_create` of `probe.h`, an empty probe. -/
def probe_create : probe_t := { protocols := [], payload_size := 0, fields := [] }

/-- Modelled from the spec: `probe_set_protocols` of `probe.h`, which installs the
layers named. -/
def probe_set_protocols (probe : probe_t) (names : List String) : probe_t :=
  { probe with protocols := names }

/-- Modelled from the spec: `probe_payload_resize` of `probe.h`. -/
def probe_payload_resize (probe : probe_t) (size : Nat) : probe_t :=
  { probe with payload_size := size }

/-- Modelled from the spec: setting one field by name, replacing the field of the same
key if the probe has one. -/
def probe_set_field (probe : probe_t) (field : field_t) : probe_t :=
  { probe with fields := probe.fields.filter (fun f => f.key != field.key) ++ [field] }

/-- Modelled from the spec: `probe_set_fields` of `probe.h`, which sets the fields given
one after the other. -/
def probe_set_fields (probe : probe_t) (fields : List field_t) : probe_t :=
  fields.foldl probe_set_field probe

/-- Modelled from the spec: the value a probe holds for a key (`probe_extract`). -/
def probe_field_value (probe : probe_t) (key : String) : Option value_t :=
  (probe.fields.find? (fun f => f.key == strdup (c_str key))).map (fun f => f.value)

/-- The options handed to `pt_algorithm_add`: the address of `traceroute_options` or
the address of `mda_options`. -/
inductive algorithm_options_t where
  | traceroute_options
  | mda_options
  deriving DecidableEq, Repr

/-- The content of the local variable `loop` of `main`, which has no initializer. -/
inductive loop_var_t where
  | uninitialized
  | created
  deriving DecidableEq, Repr

/-- The library calls of `main`, with their arguments and results as far as `main` looks
at them. -/
inductive call_t where
  | init_options (ok : Bool)
  | opt_options1st
  | opt_parse (ret : Int)
  | options_mda_get_is_set (ret : Bool)
  | address_guess_family (dst_ip : String) (family : Int)
  | address_from_string (family : Int) (dst_ip : String) (ret : Int)
  | address_dump
  | address_to_string (ret : Int)
  | probe_create (ok : Bool)
  | probe_set_protocols (names : List String)
  | probe_payload_resize (size : Nat)
  | probe_set_fields (fields : List field_t)
  | probe_dump (probe : probe_t)
  | pt_loop_create (ok : Bool)
  | network_set_timeout
  | pt_algorithm_add (name : String) (options : algorithm_options_t) (probe : probe_t)
      (ok : Bool)
  | pt_loop (ret : Int)
  | probe_free
  | pt_loop_free (loop : loop_var_t)
  deriving DecidableEq, Repr

/-- What the calls of `main` return in one run of the program: the command line, the
static variables as `opt_parse` leaves them, and the results of the library. The
content of `family` after `address_guess_family`, the result of `address_from_string`
and the pair (result, text) of `address_to_string` depend on the destination. -/
structure environment_t where
  argv : List String
  init_options : Bool
  opt_parse : Int
  globals : globals_t
  options_mda_get_is_set : Bool
  address_guess_family : String → Int
  address_from_string : Int → String → Int
  address_to_string : Int → String → Int × String
  probe_create : Bool
  pt_loop_create : Bool
  pt_algorithm_add : String → Bool
  pt_loop : Int

/-- A run of `main`: the library calls made, in order, and the argument of `exit`. -/
structure run_t where
  calls : List call_t
  exit_code : Int
  deriving DecidableEq, Repr

/-- Calls made before the rest of a run. -/
def run_t.after (calls : List call_t) (r : run_t) : run_t :=
  { calls := calls ++ r.calls, exit_code := r.exit_code }

/-- The probe skeleton that `main` configures between `probe_create` and `probe_dump`:
the layers, the payload of two bytes, the default fields, and the port 53 of option
`-U` when the destination port was not given. -/
def main_probe_skeleton (g : globals_t) (ip_protocol_name dst_ip : String) : probe_t :=
  let probe := probe_set_protocols probe_create
    [ip_protocol_name, if g.is_udp then "udp" else protocol_names.getD 0 ""]
  let probe := probe_payload_resize probe 2
  let probe := probe_set_fields probe
    [STR "dst_ip" dst_ip, I16 "dst_port" (g.dst_port.getD 0 0),
      I16 "src_port" (g.src_port.getD 0 0)]
  if g.is_udp && g.dst_port.getD 3 0 == 0 then
    probe_set_fields probe [I16 "dst_port" 53]
  else probe

/-- The calls that configure the skeleton, in the order of `main`. -/
def main_probe_calls (g : globals_t) (ip_protocol_name dst_ip : String) : List call_t :=
  [call_t.probe_set_protocols
      [ip_protocol_name, if g.is_udp then "udp" else protocol_names.getD 0 ""],
    call_t.probe_payload_resize 2,
    call_t.probe_set_fields
      [STR "dst_ip" dst_ip, I16 "dst_port" (g.dst_port.getD 0 0),
        I16 "src_port" (g.src_port.getD 0 0)]]
  ++ (if g.is_udp && g.dst_port.getD 3 0 == 0 then
        [call_t.probe_set_fields [I16 "dst_port" 53]]
      else [])
  ++ [call_t.probe_dump (main_probe_skeleton g ip_protocol_name dst_ip)]

/-- The end of `main`, from `pt_loop_create` to `exit`: a failure of `pt_loop_create`
jumps to `ERR_LOOP_CREATE`, below the two calls that free; the later failures and the
success run through `probe_free` and `pt_loop_free`. -/
def main_loop (env : environment_t) (algorithm_name : String)
    (algorithm_options : algorithm_options_t) (probe : probe_t) : run_t :=
  run_t.after [call_t.pt_loop_create env.pt_loop_create] <|
  if env.pt_loop_create = false then { calls := [], exit_code := EXIT_FAILURE }
  else
    run_t.after [call_t.network_set_timeout,
      call_t.pt_algorithm_add algorithm_name algorithm_options probe
        (env.pt_algorithm_add algorithm_name)] <|
    if env.pt_algorithm_add algorithm_name = false then
      { calls := [call_t.probe_free, call_t.pt_loop_free loop_var_t.created],
        exit_code := EXIT_FAILURE }
    else
      run_t.after [call_t.pt_loop env.pt_loop] <|
      if env.pt_loop < 0 then
        { calls := [call_t.probe_free, call_t.pt_loop_free loop_var_t.created],
          exit_code := EXIT_FAILURE }
      else
        { calls := [call_t.probe_free, call_t.pt_loop_free loop_var_t.created],
          exit_code := EXIT_SUCCESS }

/-- The choice of the algorithm options in `main`: "paris-traceroute" becomes
"traceroute"; "mda", or any name when an option of mda is set, takes the options of mda;
another name jumps to `ERR_UNKNOWN_ALGORITHM`, where `loop` has not been assigned. -/
def main_algorithm (env : environment_t) (algorithm_name : String) (probe : probe_t) :
    run_t :=
  if algorithm_name = "paris-traceroute" then
    main_loop env "traceroute" algorithm_options_t.traceroute_options probe
  else if algorithm_name = "mda" then
    main_loop env algorithm_name algorithm_options_t.mda_options probe
  else
    run_t.after [call_t.options_mda_get_is_set env.options_mda_get_is_set] <|
    if env.options_mda_get_is_set then
      main_loop env algorithm_name algorithm_options_t.mda_options probe
    else
      { calls := [call_t.probe_free, call_t.pt_loop_free loop_var_t.uninitialized],
        exit_code := EXIT_FAILURE }

/-- The part of `main` from `probe_create` on. A failure of `probe_create` jumps to
`ERR_PROBE_SKEL`, where `pt_loop_free` receives the variable `loop` before any
assignment. -/
def main_probe (env : environment_t) (algorithm_name ip_protocol_name dst_ip : String) :
    run_t :=
  run_t.after [call_t.probe_create env.probe_create] <|
  if env.probe_create = false then
    { calls := [call_t.pt_loop_free loop_var_t.uninitialized], exit_code := EXIT_FAILURE }
  else
    run_t.after (main_probe_calls env.globals ip_protocol_name dst_ip) <|
    main_algorithm env algorithm_name (main_probe_skeleton env.globals ip_protocol_name dst_ip)

/-- The part of `main` from `address_guess_family` on: the family selects the name of the
IP layer, the destination is converted to an address and back to a string. -/
def main_address (env : environment_t) (algorithm_name dst_ip : String) : run_t :=
  let family := env.address_guess_family dst_ip
  run_t.after [call_t.address_guess_family dst_ip family] <|
  if family ≠ AF_INET ∧ family ≠ AF_INET6 then { calls := [], exit_code := EXIT_FAILURE }
  else
    let ip_protocol_name := if family = AF_INET then "ipv4" else "ipv6"
    run_t.after
      [call_t.address_from_string family dst_ip (env.address_from_string family dst_ip)] <|
    if env.address_from_string family dst_ip ≠ 0 then
      { calls := [], exit_code := EXIT_FAILURE }
    else
      run_t.after
        [call_t.address_dump,
          call_t.address_to_string (env.address_to_string family dst_ip).1] <|
      if (env.address_to_string family dst_ip).1 ≠ 0 then
        { calls := [], exit_code := EXIT_FAILURE }
      else
        main_probe env algorithm_name ip_protocol_name (env.address_to_string family dst_ip).2

/-- The body of `main` for a given initial value of the local `algorithm_name`. The
texts written on the standard streams are left out. The destination is the last
argument of the command line. -/
def main_from (algorithm_name : String) (env : environment_t) : run_t :=
  run_t.after [call_t.init_options env.init_options] <|
  if env.init_options = false then { calls := [], exit_code := EXIT_FAILURE }
  else
    run_t.after [call_t.opt_options1st, call_t.opt_parse env.opt_parse] <|
    if env.opt_parse ≠ 1 then { calls := [], exit_code := EXIT_FAILURE }
    else
      run_t.after [call_t.options_mda_get_is_set env.options_mda_get_is_set] <|
      if env.options_mda_get_is_set && algorithm_name != "mda" then
        { calls := [], exit_code := EXIT_FAILURE }
      else main_address env algorithm_name (env.argv.getLastD "")

/-- The program `main`: the local `algorithm_name` is initialised with
`algorithm_names[0]` before the command line is read. -/
def main (env : environment_t) : run_t := main_from (algorithm_names.getD 0 "") env

/-- The values that the calls of `probe_set_fields` write for the key "dst_port", in
the order of the calls. -/
def dst_port_writes : List call_t → List value_t
  | [] => []
  | call_t.probe_set_fields fields :: rest =>
      (fields.filter (fun f => f.key == strdup (c_str "dst_port"))).map (fun f => f.value)
        ++ dst_port_writes rest
  | _ :: rest => dst_port_writes rest

/-- The probe skeleton that a call receives: `probe_dump` and `pt_algorithm_add` are the
calls of `main` made on the configured skeleton. -/
def call_t.skeleton (c : call_t) : Option probe_t :=
  match c with
  | call_t.probe_dump probe => some probe
  | call_t.pt_algorithm_add _ _ probe _ => some probe
  | _ => none

/-- The layers that a run installs with `probe_set_protocols`, if it does. -/
def installed_protocols (r : run_t) : Option (List String) :=
  r.calls.findSome? (fun c => match c with
    | call_t.probe_set_protocols names => some names
    | _ => none)

/-- A run creates nothing: it calls neither `probe_create`, nor `pt_loop_create`, nor
`pt_algorithm_add`. -/
def creates_nothing (r : run_t) : Bool :=
  r.calls.all (fun c => match c with
    | call_t.probe_create _ => false
    | call_t.pt_loop_create _ => false
    | call_t.pt_algorithm_add _ _ _ _ => false
    | _ => true)

/-- The condition of the claim on the exit status, read on the calls of a run:
`init_options` succeeds, `opt_parse` returns 1, the family selected is `AF_INET` or
`AF_INET6`, the two address conversions return 0, `probe_create` succeeds and the
skeleton receives its layers and fields, `pt_loop_create` and `pt_algorithm_add` succeed,
and `pt_loop` returns a non-negative value. -/
def steps_succeed (r : run_t) : Prop :=
  call_t.init_options true ∈ r.calls
  ∧ call_t.opt_parse 1 ∈ r.calls
  ∧ (∃ dst_ip family, (family = AF_INET ∨ family = AF_INET6)
      ∧ call_t.address_guess_family dst_ip family ∈ r.calls)
  ∧ (∃ dst_ip family, call_t.address_from_string family dst_ip 0 ∈ r.calls)
  ∧ call_t.address_to_string 0 ∈ r.calls
  ∧ call_t.probe_create true ∈ r.calls
  ∧ (∃ names, call_t.probe_set_protocols names ∈ r.calls)
  ∧ (∃ fields, call_t.probe_set_fields fields ∈ r.calls)
  ∧ call_t.pt_loop_create true ∈ r.calls
  ∧ (∃ name options probe, call_t.pt_algorithm_add name options probe true ∈ r.calls)
  ∧ (∃ ret, 0 ≤ ret ∧ call_t.pt_loop ret ∈ r.calls)

/-- An environment in which every call succeeds; `family` is what
`address_guess_family` finds for the destination, and `address_to_string` gives the
destination back. -/
def env_ok (argv : List String) (g : globals_t) (family : Int) : environment_t :=
  { argv := argv
    init_options := true
    opt_parse := 1
    globals := g
    options_mda_get_is_set := false
    address_guess_family := fun _ => family
    address_from_string := fun _ _ => 0
    address_to_string := fun _ dst_ip => (0, dst_ip)
    probe_create := true
    pt_loop_create := true
    pt_algorithm_add := fun _ => true
    pt_loop := 0 }

/-- The environment `env_ok` of the command line `paris-traceroute 8.8.8.8`, with an
option of mda set. -/
def env_mda_option : environment_t :=
  { env_ok ["paris-traceroute", "8.8.8.8"] globals_init AF_INET with
    options_mda_get_is_set := true }

/-- The environment `env_ok` of the command line `paris-traceroute -U -d 80 8.8.8.8`:
`is_udp` is set, `dst_port` holds 80 and its flag is 1. -/
def env_udp_port_80 : environment_t :=
  env_ok ["paris-traceroute", "-U", "-d", "80", "8.8.8.8"]
    { globals_init with is_udp := true, dst_port := [80, 0, UINT16_MAX, 1] } AF_INET

/-- The environment `env_ok` of the command line `paris-traceroute -U 8.8.8.8`: `is_udp`
is set and `dst_port` is as initialised. -/
def env_udp : environment_t :=
  env_ok ["paris-traceroute", "-U", "8.8.8.8"] { globals_init with is_udp := true } AF_INET

/-- The environment `env_ok` of the command line `paris-traceroute 8.8.8.8`, in which
`probe_create` returns the null pointer. -/
def env_probe_create_fails : environment_t :=
  { env_ok ["paris-traceroute", "8.8.8.8"] globals_init AF_INET with probe_create := false }


/-! ## Theorems: field.c -/

theorem byte_at_lt (m : List Nat) (i : Nat) : byte_at m i < 256 :=
  Nat.mod_lt _ (by decide)

theorem to_int32_sub_of_lt (a b : Nat) (ha : a < 4294967296) (hb : b < 4294967296) :
    to_int32 (sub_uint32 a b) =
      if (a : Int) - b < -2147483648 then (a : Int) - b + 4294967296
      else if 2147483648 ≤ (a : Int) - b then (a : Int) - b - 4294967296
      else (a : Int) - b := by
  unfold to_int32 sub_uint32
  rw [Nat.mod_eq_of_lt ha, Nat.mod_eq_of_lt hb, Nat.mod_mod]
  by_cases hab : b ≤ a
  · have h1 : (a + 4294967296 - b) % 4294967296 = a - b := by
      have : a + 4294967296 - b = (a - b) + 4294967296 := by omega
      rw [this, Nat.add_mod_right]
      exact Nat.mod_eq_of_lt (by omega)
    rw [h1]
    split_ifs <;> omega
  · have h1 : (a + 4294967296 - b) % 4294967296 = a + 4294967296 - b :=
      Nat.mod_eq_of_lt (by omega)
    rw [h1]
    split_ifs <;> omega

/-- The 8-bit branch of `field_compare` orders the values: the sign of the result is the
order of the two values. -/
theorem field_compare_int8_order (strcmp : List Nat → List Nat → Int) (k1 k2 : List Nat)
    (a b : Nat) :
    ∃ r, field_compare strcmp ⟨k1, value_t.int8 (a % 256), TYPE_INT8⟩
          ⟨k2, value_t.int8 (b % 256), TYPE_INT8⟩ = some r
      ∧ (r < 0 ↔ a % 256 < b % 256) ∧ (r = 0 ↔ a % 256 = b % 256)
      ∧ (0 < r ↔ b % 256 < a % 256) := by
  refine ⟨((a % 256 : Nat) : Int) - ((b % 256 : Nat) : Int), ?_, ?_, ?_, ?_⟩
  · simp [field_compare]
  · omega
  · omega
  · omega

/-- The 16-bit branch of `field_compare` orders the values. -/
theorem field_compare_int16_order (strcmp : List Nat → List Nat → Int) (k1 k2 : List Nat)
    (a b : Nat) :
    ∃ r, field_compare strcmp ⟨k1, value_t.int16 (a % 65536), TYPE_INT16⟩
          ⟨k2, value_t.int16 (b % 65536), TYPE_INT16⟩ = some r
      ∧ (r < 0 ↔ a % 65536 < b % 65536) ∧ (r = 0 ↔ a % 65536 = b % 65536)
      ∧ (0 < r ↔ b % 65536 < a % 65536) := by
  refine ⟨((a % 65536 : Nat) : Int) - ((b % 65536 : Nat) : Int), ?_, ?_, ?_, ?_⟩
  · simp [field_compare]
  · omega
  · omega
  · omega

/-- The 32-bit branch of `field_compare` orders two values that are less than `2^31`
apart. -/
theorem field_compare_int32_order_of_close (strcmp : List Nat → List Nat → Int)
    (k1 k2 : List Nat) (a b : Nat) (ha : a < 4294967296) (hb : b < 4294967296)
    (hclose : (a : Int) - b < 2147483648 ∧ -2147483648 ≤ (a : Int) - b) :
    ∃ r, field_compare strcmp ⟨k1, value_t.int32 a, TYPE_INT32⟩
          ⟨k2, value_t.int32 b, TYPE_INT32⟩ = some r
      ∧ (r < 0 ↔ a < b) ∧ (r = 0 ↔ a = b) ∧ (0 < r ↔ b < a) := by
  refine ⟨(a : Int) - b, ?_, ?_, ?_, ?_⟩
  · simp only [field_compare, ne_eq, not_true_eq_false, if_false]
    rw [to_int32_sub_of_lt a b ha hb]
    have h1 : ¬ ((a : Int) - b < -2147483648) := by omega
    have h2 : ¬ (2147483648 ≤ (a : Int) - b) := by omega
    simp [h1, h2]
  · omega
  · omega
  · omega

/-- C1: `field_compare` on two 32-bit fields of values 3000000000 and 0: the first value
is the greater and the result is the negative number -1294967296, so the sign of the
result is not the order of the values. -/
theorem field_compare_int32_sign_wrong (strcmp : List Nat → List Nat → Int)
    (key : List Nat) :
    ∃ a b, field_create_int32 true key 3000000000 = some a
      ∧ field_create_int32 true key 0 = some b
      ∧ a.type = b.type
      ∧ a.value = value_t.int32 3000000000 ∧ b.value = value_t.int32 0
      ∧ field_compare strcmp a b = some (-1294967296) := by
  refine ⟨_, _, rfl, rfl, rfl, rfl, rfl, ?_⟩
  simp [field_compare, to_int32, sub_uint32]

/-- C2: `field_compare` on two 8-bit fields of values 1 and 3, which have the same type,
returns -2, the value that signals fields of different types. -/
theorem field_compare_same_type_minus_two (strcmp : List Nat → List Nat → Int)
    (key : List Nat) :
    ∃ a b, field_create_int8 true key 1 = some a
      ∧ field_create_int8 true key 3 = some b
      ∧ a.type = b.type
      ∧ field_compare strcmp a b = some (-2) := by
  refine ⟨_, _, rfl, rfl, rfl, ?_⟩
  simp [field_compare]

/-- Fields of different types compare to -2. -/
theorem field_compare_of_type_ne (strcmp : List Nat → List Nat → Int) (a b : field_t)
    (h : a.type ≠ b.type) : field_compare strcmp a b = some (-2) := by
  simp [field_compare, h]

theorem ntohs_load_uint16 (host : endian) (b0 b1 : Nat) (rest : List Nat)
    (h0 : b0 < 256) (h1 : b1 < 256) :
    ntohs host (load_uint16 host (b0 :: b1 :: rest)) = b0 * 256 + b1 := by
  cases host <;>
    simp [ntohs, load_uint16, byte_at, Nat.mod_eq_of_lt h0, Nat.mod_eq_of_lt h1] <;> omega

theorem ntohl_load_uint32 (host : endian) (b0 b1 b2 b3 : Nat) (rest : List Nat)
    (h0 : b0 < 256) (h1 : b1 < 256) (h2 : b2 < 256) (h3 : b3 < 256) :
    ntohl host (load_uint32 host (b0 :: b1 :: b2 :: b3 :: rest))
      = b0 * 16777216 + b1 * 65536 + b2 * 256 + b3 := by
  cases host <;>
    simp [ntohl, load_uint32, byte_at, Nat.mod_eq_of_lt h0, Nat.mod_eq_of_lt h1,
      Nat.mod_eq_of_lt h2, Nat.mod_eq_of_lt h3] <;> omega

/-- C3: `field_create_from_network` decodes network byte order on both kinds of host:
from the wire bytes `b0 b1` a 16-bit field of value `b0*256 + b1`, from `b0 b1 b2 b3` a
32-bit field of value `b0*2^24 + b1*2^16 + b2*2^8 + b3`, from `b0` an 8-bit field of
value `b0`; the type tag is the requested one. -/
theorem field_create_from_network_decodes (host : endian) (key : List Nat)
    (b0 b1 b2 b3 : Nat) (rest : List Nat)
    (h0 : b0 < 256) (h1 : b1 < 256) (h2 : b2 < 256) (h3 : b3 < 256) :
    field_create_from_network host true TYPE_INT16 key (b0 :: b1 :: rest)
        = some { key := strdup key, value := value_t.int16 (b0 * 256 + b1), type := TYPE_INT16 }
    ∧ field_create_from_network host true TYPE_INT32 key (b0 :: b1 :: b2 :: b3 :: rest)
        = some { key := strdup key
                 value := value_t.int32 (b0 * 2 ^ 24 + b1 * 2 ^ 16 + b2 * 2 ^ 8 + b3)
                 type := TYPE_INT32 }
    ∧ field_create_from_network host true TYPE_INT8 key (b0 :: rest)
        = some { key := strdup key, value := value_t.int8 b0, type := TYPE_INT8 } := by
  refine ⟨?_, ?_, ?_⟩
  · simp only [field_create_from_network, field_create_int16, if_true]
    rw [ntohs_load_uint16 host b0 b1 rest h0 h1, Nat.mod_eq_of_lt (by omega)]
  · simp only [field_create_from_network, field_create_int32, if_true]
    rw [ntohl_load_uint32 host b0 b1 b2 b3 rest h0 h1 h2 h3, Nat.mod_eq_of_lt (by omega)]
    norm_num
  · simp [field_create_from_network, field_create_int8, load_uint8, byte_at,
      Nat.mod_eq_of_lt h0]

/-- C3, at the wire bytes `18 52 86 120` (`0x12 0x34 0x56 0x78`) on a little-endian
host. -/
theorem field_create_from_network_decodes_witness :
    field_create_from_network endian.little true TYPE_INT16 [107, 0] [18, 52]
        = some { key := strdup [107, 0], value := value_t.int16 (18 * 256 + 52),
                 type := TYPE_INT16 }
    ∧ field_create_from_network endian.little true TYPE_INT32 [107, 0] [18, 52, 86, 120]
        = some { key := strdup [107, 0]
                 value := value_t.int32 (18 * 2 ^ 24 + 52 * 2 ^ 16 + 86 * 2 ^ 8 + 120)
                 type := TYPE_INT32 }
    ∧ field_create_from_network endian.little true TYPE_INT8 [107, 0] [18]
        = some { key := strdup [107, 0], value := value_t.int8 18, type := TYPE_INT8 } :=
  field_create_from_network_decodes endian.little [107, 0] 18 52 86 120 []
    (by decide) (by decide) (by decide) (by decide)

theorem load_uint16_lt (host : endian) (m : List Nat) : load_uint16 host m < 65536 := by
  have h0 := byte_at_lt m 0
  have h1 := byte_at_lt m 1
  cases host <;> simp only [load_uint16] <;> omega

theorem load_uint32_lt (host : endian) (m : List Nat) : load_uint32 host m < 4294967296 := by
  have h0 := byte_at_lt m 0
  have h1 := byte_at_lt m 1
  have h2 := byte_at_lt m 2
  have h3 := byte_at_lt m 3
  cases host <;> simp only [load_uint32] <;> omega

/-- C10: with the allocation succeeding, `field_create` returns a field exactly for the
types 8-bit, 16-bit, 32-bit and string; the field has the requested type, a copy of the
key, and the value read through the pointer with the width of the type (or the string
at the pointer). For the 4-bit type and for every other type it returns the null
pointer. -/
theorem field_create_spec (host : endian) (key value : List Nat) :
    field_create host true TYPE_INT8 key value
        = some { key := strdup key, value := value_t.int8 (load_uint8 value), type := TYPE_INT8 }
    ∧ field_create host true TYPE_INT16 key value
        = some { key := strdup key, value := value_t.int16 (load_uint16 host value),
                 type := TYPE_INT16 }
    ∧ field_create host true TYPE_INT32 key value
        = some { key := strdup key, value := value_t.int32 (load_uint32 host value),
                 type := TYPE_INT32 }
    ∧ field_create host true TYPE_STRING key value
        = some { key := strdup key, value := value_t.string (c_string value),
                 type := TYPE_STRING }
    ∧ field_create host true TYPE_INT4 key value = none
    ∧ (∀ code, field_create host true (TYPE_OTHER code) key value = none)
    ∧ (∀ type, (field_create host true type key value).isSome = true ↔
        (type = TYPE_INT8 ∨ type = TYPE_INT16 ∨ type = TYPE_INT32 ∨ type = TYPE_STRING)) := by
  refine ⟨?_, ?_, ?_, ?_, rfl, fun _ => rfl, ?_⟩
  · simp only [field_create, field_create_int8, if_true]
    rw [Nat.mod_eq_of_lt (show load_uint8 value < 256 from byte_at_lt value 0)]
  · simp only [field_create, field_create_int16, if_true]
    rw [Nat.mod_eq_of_lt (load_uint16_lt host value)]
  · simp only [field_create, field_create_int32, if_true]
    rw [Nat.mod_eq_of_lt (load_uint32_lt host value)]
  · rfl
  · intro type
    cases type <;>
      simp [field_create, field_create_int8, field_create_int16, field_create_int32,
        field_create_string]

/-! ## Theorems: the traceroute handler -/

theorem pad_right_length (width : Nat) (s : String) :
    (pad_right width s).length = s.length + (width - s.length) := by
  rw [pad_right, String.length_append]
  show s.length + (List.replicate (width - s.length) ' ').length = _
  rw [List.length_replicate]

theorem printf_ttl_ne_newline (ttl : Nat) : printf_ttl ttl ≠ "\n" := by
  intro h
  have h1 := congrArg String.length h
  rw [printf_ttl, pad_right_length] at h1
  have h2 : ("\n" : String).length = 1 := by decide
  omega

theorem printf_ip_ne_newline (ip : String) : printf_ip ip ≠ "\n" := by
  intro h
  have h1 := congrArg String.length h
  simp only [printf_ip, String.length_append, pad_right_length] at h1
  have h2 : ("\n" : String).length = 1 := by decide
  have h3 : (" " : String).length = 1 := by decide
  omega

theorem paren_ne_newline (s : String) : "(" ++ s ++ ")" ≠ "\n" := by
  intro h
  have h1 := congrArg String.length h
  simp only [String.length_append] at h1
  have h2 : ("\n" : String).length = 1 := by decide
  have h3 : ("(" : String).length = 1 := by decide
  have h4 : (")" : String).length = 1 := by decide
  omega

theorem delay_ne_newline (s : String) : " (" ++ s ++ "ms) " ≠ "\n" := by
  intro h
  have h1 := congrArg String.length h
  simp only [String.length_append] at h1
  have h2 : ("\n" : String).length = 1 := by decide
  have h3 : (" (" : String).length = 2 := by decide
  omega

/-- On an outcome event the `switch` adds one to the counter and prints no text that is
a line break; what it prints is not empty. -/
theorem handler_switch_outcome (do_resolv : Bool) (num_probes c : Nat)
    (ev : traceroute_event_t) (hev : is_outcome ev = true) (hc : c + 1 < SIZE_MODULUS) :
    (handler_switch do_resolv num_probes c ev).1 = c + 1
      ∧ "\n" ∉ (handler_switch do_resolv num_probes c ev).2
      ∧ (handler_switch do_resolv num_probes c ev).2 ≠ [] := by
  cases ev with
  | TRACEROUTE_PROBE_REPLY data =>
      refine ⟨by simp [handler_switch, Nat.mod_eq_of_lt hc], ?_, by simp [handler_switch]⟩
      simp only [handler_switch, List.mem_append, List.mem_singleton, not_or]
      refine ⟨⟨?_, ?_⟩, fun h => delay_ne_newline _ h.symm⟩
      · split_ifs
        · cases data.ttl with
          | none => simp
          | some ttl => simpa using fun h => printf_ttl_ne_newline ttl h.symm
        · simp
      · cases data.src_ip with
        | none => simp
        | some ip =>
            simp only [List.mem_cons, not_or]
            refine ⟨fun h => printf_ip_ne_newline ip h.symm, ?_⟩
            split_ifs
            · cases data.hostname with
              | none => simp
              | some hn => simpa using fun h => paren_ne_newline hn h.symm
            · simp
  | TRACEROUTE_STAR =>
      refine ⟨by simp [handler_switch, Nat.mod_eq_of_lt hc], ?_, by simp [handler_switch]⟩
      simp only [handler_switch, List.mem_singleton]
      decide
  | TRACEROUTE_ICMP_ERROR =>
      refine ⟨by simp [handler_switch, Nat.mod_eq_of_lt hc], ?_, by simp [handler_switch]⟩
      simp only [handler_switch, List.mem_singleton]
      decide
  | TRACEROUTE_TOO_MANY_STARS => simp [is_outcome] at hev
  | TRACEROUTE_MAX_TTL_REACHED => simp [is_outcome] at hev
  | TRACEROUTE_DESTINATION_REACHED => simp [is_outcome] at hev
  | TRACEROUTE_OTHER code => simp [is_outcome] at hev

/-- One call of the handler on an outcome event: the counter grows by one, and the line
break is the last text printed exactly when the new counter is a multiple of
`num_probes`. -/
theorem my_traceroute_handler_outcome (do_resolv : Bool) (num_probes c : Nat)
    (ev : traceroute_event_t) (hn : 1 ≤ num_probes) (hev : is_outcome ev = true)
    (hc : c + 1 < SIZE_MODULUS) :
    ∃ out, my_traceroute_handler do_resolv num_probes c ev = some (c + 1, out)
      ∧ (out.getLast? = some "\n" ↔ num_probes ∣ c + 1)
      ∧ "\n" ∉ out.dropLast := by
  obtain ⟨h1, h2, h3⟩ := handler_switch_outcome do_resolv num_probes c ev hev hc
  have hn0 : num_probes ≠ 0 := by omega
  by_cases hd : (c + 1) % num_probes = 0
  · refine ⟨(handler_switch do_resolv num_probes c ev).2 ++ ["\n"], ?_, ?_, ?_⟩
    · simp [my_traceroute_handler, hn0, h1, hd]
    · simp [Nat.dvd_iff_mod_eq_zero, hd]
    · simpa using h2
  · refine ⟨(handler_switch do_resolv num_probes c ev).2, ?_, ?_, ?_⟩
    · simp [my_traceroute_handler, hn0, h1, hd]
    · constructor
      · intro hl
        exact absurd (List.mem_of_getLast?_eq_some hl) h2
      · intro hdvd
        exact absurd (Nat.dvd_iff_mod_eq_zero.mp hdvd) hd
    · intro hm
      exact h2 (List.dropLast_subset _ hm)

/-- The handler called on a list of outcome events from the counter `c` ends with the
counter `c` plus the number of events. -/
theorem handle_events_outcomes (do_resolv : Bool) (num_probes : Nat) (hn : 1 ≤ num_probes)
    (events : List traceroute_event_t) :
    ∀ c, (∀ ev ∈ events, is_outcome ev = true) → c + events.length < SIZE_MODULUS →
      ∃ out, handle_events do_resolv num_probes c events = some (c + events.length, out) := by
  induction events with
  | nil => intro c _ _; exact ⟨[], by simp [handle_events]⟩
  | cons ev rest ih =>
      intro c hall hlen
      simp only [List.length_cons] at hlen
      obtain ⟨out, hout, -, -⟩ := my_traceroute_handler_outcome do_resolv num_probes c ev hn
        (hall ev (List.mem_cons_self _ _)) (by omega)
      obtain ⟨out2, hout2⟩ := ih (c + 1)
        (fun e he => hall e (List.mem_cons_of_mem _ he)) (by omega)
      refine ⟨out ++ out2, ?_⟩
      simp only [handle_events, hout, hout2, List.length_cons]
      congr 2
      omega

/-- C4: with three probes per TTL, three `TRACEROUTE_STAR` events handled from the
counter 0 (all the probes of one TTL time out) print ` * * *` and a line break: the line
does not begin with the TTL. -/
theorem handler_star_line_has_no_ttl (do_resolv : Bool) :
    handle_events do_resolv 3 0 [TRACEROUTE_STAR, TRACEROUTE_STAR, TRACEROUTE_STAR]
        = some (3, [" *", " *", " *", "\n"])
    ∧ stdout_text [" *", " *", " *", "\n"] = " * * *\n" := by
  constructor
  · simp [handle_events, my_traceroute_handler, handler_switch, SIZE_MODULUS]
  · decide

/-- C5: for `num_probes >= 1` and a sequence of outcome events handled from the counter
0 (shorter than the range of the `size_t` counter), the counter before the event of
index `k` is `k`, the event makes it `k + 1`, and the line break is printed, as the last
text of that call, exactly when `k + 1` is a multiple of `num_probes`. -/
theorem handler_line_break_every_num_probes (do_resolv : Bool) (num_probes : Nat)
    (events : List traceroute_event_t) (hn : 1 ≤ num_probes)
    (hall : ∀ ev ∈ events, is_outcome ev = true) (hlen : events.length < SIZE_MODULUS)
    (k : Nat) (hk : k < events.length) :
    (∃ printed, handle_events do_resolv num_probes 0 (events.take k) = some (k, printed))
    ∧ ∃ out, my_traceroute_handler do_resolv num_probes k (events.get ⟨k, hk⟩)
          = some (k + 1, out)
        ∧ (out.getLast? = some "\n" ↔ num_probes ∣ k + 1)
        ∧ "\n" ∉ out.dropLast := by
  constructor
  · obtain ⟨out, hout⟩ := handle_events_outcomes do_resolv num_probes hn (events.take k) 0
      (fun e he => hall e (List.mem_of_mem_take he))
      (by simp only [List.length_take]; omega)
    refine ⟨out, ?_⟩
    rw [hout]
    simp only [List.length_take]
    congr 2
    omega
  · exact my_traceroute_handler_outcome do_resolv num_probes k _ hn
      (hall _ (List.get_mem _ _ _)) (by omega)

/-- C5, at four outcome events with two probes per TTL: before the event of index 3
the counter is 3, the star makes it 4 and is followed by the line break. -/
theorem handler_line_break_every_num_probes_witness :
    (∃ printed, handle_events true 2 0
        ([TRACEROUTE_STAR, TRACEROUTE_ICMP_ERROR, TRACEROUTE_STAR, TRACEROUTE_STAR].take 3)
        = some (3, printed))
    ∧ ∃ out, my_traceroute_handler true 2 3
          ([TRACEROUTE_STAR, TRACEROUTE_ICMP_ERROR, TRACEROUTE_STAR, TRACEROUTE_STAR].get
            ⟨3, by decide⟩)
          = some (3 + 1, out)
        ∧ (out.getLast? = some "\n" ↔ 2 ∣ 3 + 1)
        ∧ "\n" ∉ out.dropLast :=
  handler_line_break_every_num_probes true 2
    [TRACEROUTE_STAR, TRACEROUTE_ICMP_ERROR, TRACEROUTE_STAR, TRACEROUTE_STAR]
    (by decide) (by decide) (by decide) 3 (by decide)

/-! ## Theorems: the main program -/

@[simp] theorem after_exit_code (calls : List call_t) (r : run_t) :
    (run_t.after calls r).exit_code = r.exit_code := rfl

@[simp] theorem after_calls (calls : List call_t) (r : run_t) :
    (run_t.after calls r).calls = calls ++ r.calls := rfl

theorem mem_after_left {c : call_t} {calls : List call_t} (r : run_t) (h : c ∈ calls) :
    c ∈ (run_t.after calls r).calls :=
  List.mem_append_left _ h

theorem mem_after_right {c : call_t} (calls : List call_t) {r : run_t} (h : c ∈ r.calls) :
    c ∈ (run_t.after calls r).calls :=
  List.mem_append_right _ h

@[simp] theorem creates_nothing_after (calls : List call_t) (r : run_t) :
    creates_nothing (run_t.after calls r)
      = (creates_nothing ⟨calls, 0⟩ && creates_nothing r) := by
  simp [creates_nothing, run_t.after, List.all_append]

/-- C6: when an option of mda is set and the algorithm name is not "mda", `main` exits
with a non-zero status and calls neither `probe_create`, nor `pt_loop_create`, nor
`pt_algorithm_add`; this holds for every initial value of `algorithm_name` other than
"mda", and so for `main`, whose `algorithm_name` is "paris-traceroute". -/
theorem main_mda_option_without_mda_is_fatal (algorithm_name : String)
    (env : environment_t) (hset : env.options_mda_get_is_set = true)
    (hname : algorithm_name ≠ "mda") :
    (main_from algorithm_name env).exit_code ≠ 0
    ∧ creates_nothing (main_from algorithm_name env) = true
    ∧ (main env).exit_code ≠ 0
    ∧ creates_nothing (main env) = true := by
  have key : ∀ name : String, name ≠ "mda" →
      (main_from name env).exit_code ≠ 0 ∧ creates_nothing (main_from name env) = true := by
    intro name hne
    unfold main_from
    by_cases h1 : env.init_options = false
    · simp [h1, EXIT_FAILURE, creates_nothing]
    · by_cases h2 : env.opt_parse ≠ 1
      · simp [h1, h2, EXIT_FAILURE, creates_nothing]
      · simp [h1, h2, hset, hne, EXIT_FAILURE, creates_nothing]
  have hmain : algorithm_names.getD 0 "" ≠ "mda" := by decide
  exact ⟨(key _ hname).1, (key _ hname).2, (key _ hmain).1, (key _ hmain).2⟩

/-- C6, at a run in which an option of mda is set and everything else would succeed. -/
theorem main_mda_option_without_mda_is_fatal_witness :
    env_mda_option.options_mda_get_is_set = true
    ∧ "paris-traceroute" ≠ "mda"
    ∧ (main_from "paris-traceroute" env_mda_option).exit_code ≠ 0
    ∧ creates_nothing (main_from "paris-traceroute" env_mda_option) = true
    ∧ (main env_mda_option).exit_code ≠ 0
    ∧ creates_nothing (main env_mda_option) = true :=
  ⟨rfl, by decide,
    main_mda_option_without_mda_is_fatal "paris-traceroute" env_mda_option rfl (by decide)⟩


/-- What a zero exit status of the end of `main` tells about its calls. -/
theorem main_loop_exit_zero (env : environment_t) (name : String)
    (options : algorithm_options_t) (probe : probe_t)
    (h : (main_loop env name options probe).exit_code = 0) :
    call_t.pt_loop_create true ∈ (main_loop env name options probe).calls
    ∧ call_t.pt_algorithm_add name options probe true ∈ (main_loop env name options probe).calls
    ∧ ∃ ret, 0 ≤ ret ∧ call_t.pt_loop ret ∈ (main_loop env name options probe).calls := by
  unfold main_loop at h ⊢
  by_cases h1 : env.pt_loop_create = false
  · simp [h1, EXIT_FAILURE] at h
  · by_cases h2 : env.pt_algorithm_add name = false
    · simp [h1, h2, EXIT_FAILURE] at h
    · by_cases h3 : env.pt_loop < 0
      · simp [h1, h2, h3, EXIT_FAILURE] at h
      · simp only [Bool.not_eq_false] at h1 h2
        simp [h1, h2, h3]
        omega

/-- A call of `pt_loop` that returns a non-negative value ends with the status 0. -/
theorem main_loop_exit_zero_of_pt_loop (env : environment_t) (name : String)
    (options : algorithm_options_t) (probe : probe_t) (ret : Int) (hret : 0 ≤ ret)
    (h : call_t.pt_loop ret ∈ (main_loop env name options probe).calls) :
    (main_loop env name options probe).exit_code = 0 := by
  unfold main_loop at h ⊢
  by_cases h1 : env.pt_loop_create = false
  · simp [h1] at h
  · by_cases h2 : env.pt_algorithm_add name = false
    · simp [h1, h2] at h
    · by_cases h3 : env.pt_loop < 0
      · simp [h1, h2, h3] at h
        omega
      · simp [h1, h2, h3, EXIT_SUCCESS]

theorem main_algorithm_exit_zero (env : environment_t) (algorithm_name : String)
    (probe : probe_t) (h : (main_algorithm env algorithm_name probe).exit_code = 0) :
    call_t.pt_loop_create true ∈ (main_algorithm env algorithm_name probe).calls
    ∧ (∃ name options, call_t.pt_algorithm_add name options probe true
        ∈ (main_algorithm env algorithm_name probe).calls)
    ∧ ∃ ret, 0 ≤ ret ∧ call_t.pt_loop ret ∈ (main_algorithm env algorithm_name probe).calls := by
  unfold main_algorithm at h ⊢
  split_ifs at h ⊢ with h1 h2 h3
  · obtain ⟨a, b, c⟩ := main_loop_exit_zero _ _ _ _ h
    exact ⟨a, ⟨_, _, b⟩, c⟩
  · obtain ⟨a, b, c⟩ := main_loop_exit_zero _ _ _ _ h
    exact ⟨a, ⟨_, _, b⟩, c⟩
  · simp only [after_exit_code] at h
    obtain ⟨a, b, ret, c, d⟩ := main_loop_exit_zero _ _ _ _ h
    simp only [after_calls, List.mem_append]
    exact ⟨Or.inr a, ⟨_, _, Or.inr b⟩, ret, c, Or.inr d⟩
  · simp [EXIT_FAILURE] at h

theorem main_algorithm_exit_zero_of_pt_loop (env : environment_t) (algorithm_name : String)
    (probe : probe_t) (ret : Int) (hret : 0 ≤ ret)
    (h : call_t.pt_loop ret ∈ (main_algorithm env algorithm_name probe).calls) :
    (main_algorithm env algorithm_name probe).exit_code = 0 := by
  unfold main_algorithm at h ⊢
  split_ifs at h ⊢ with h1 h2 h3
  · exact main_loop_exit_zero_of_pt_loop _ _ _ _ ret hret h
  · exact main_loop_exit_zero_of_pt_loop _ _ _ _ ret hret h
  · simp only [after_calls, List.mem_append, List.mem_singleton, reduceCtorEq, false_or] at h
    exact main_loop_exit_zero_of_pt_loop _ _ _ _ ret hret h
  · simp at h

theorem pt_loop_not_mem_main_probe_calls (g : globals_t) (ipn dst_ip : String) (ret : Int) :
    call_t.pt_loop ret ∉ main_probe_calls g ipn dst_ip := by
  unfold main_probe_calls
  split_ifs <;> simp

theorem set_protocols_mem_main_probe_calls (g : globals_t) (ipn dst_ip : String) :
    call_t.probe_set_protocols
        [ipn, if g.is_udp then "udp" else protocol_names.getD 0 ""]
      ∈ main_probe_calls g ipn dst_ip :=
  List.mem_append_left _ (List.mem_append_left _ (List.mem_cons_self _ _))

theorem set_fields_mem_main_probe_calls (g : globals_t) (ipn dst_ip : String) :
    call_t.probe_set_fields
        [STR "dst_ip" dst_ip, I16 "dst_port" (g.dst_port.getD 0 0),
          I16 "src_port" (g.src_port.getD 0 0)]
      ∈ main_probe_calls g ipn dst_ip :=
  List.mem_append_left _ (List.mem_append_left _
    (List.mem_cons_of_mem _ (List.mem_cons_of_mem _ (List.mem_cons_self _ _))))

theorem main_probe_exit_zero (env : environment_t) (algorithm_name ipn dst_ip : String)
    (h : (main_probe env algorithm_name ipn dst_ip).exit_code = 0) :
    call_t.probe_create true ∈ (main_probe env algorithm_name ipn dst_ip).calls
    ∧ (∃ names, call_t.probe_set_protocols names
        ∈ (main_probe env algorithm_name ipn dst_ip).calls)
    ∧ (∃ fields, call_t.probe_set_fields fields
        ∈ (main_probe env algorithm_name ipn dst_ip).calls)
    ∧ call_t.pt_loop_create true ∈ (main_probe env algorithm_name ipn dst_ip).calls
    ∧ (∃ name options probe, call_t.pt_algorithm_add name options probe true
        ∈ (main_probe env algorithm_name ipn dst_ip).calls)
    ∧ ∃ ret, 0 ≤ ret ∧ call_t.pt_loop ret ∈ (main_probe env algorithm_name ipn dst_ip).calls := by
  unfold main_probe at h ⊢
  by_cases h1 : env.probe_create = false
  · simp [h1, EXIT_FAILURE] at h
  · rw [if_neg h1] at h ⊢
    simp only [after_exit_code] at h
    obtain ⟨a, ⟨n, o, b⟩, ret, c, d⟩ := main_algorithm_exit_zero _ _ _ h
    simp only [Bool.not_eq_false] at h1
    rw [h1]
    exact ⟨mem_after_left _ (by simp),
      ⟨_, mem_after_right _ (mem_after_left _ (set_protocols_mem_main_probe_calls _ _ _))⟩,
      ⟨_, mem_after_right _ (mem_after_left _ (set_fields_mem_main_probe_calls _ _ _))⟩,
      mem_after_right _ (mem_after_right _ a),
      ⟨n, o, _, mem_after_right _ (mem_after_right _ b)⟩,
      ret, c, mem_after_right _ (mem_after_right _ d)⟩

theorem main_probe_exit_zero_of_pt_loop (env : environment_t)
    (algorithm_name ipn dst_ip : String) (ret : Int) (hret : 0 ≤ ret)
    (h : call_t.pt_loop ret ∈ (main_probe env algorithm_name ipn dst_ip).calls) :
    (main_probe env algorithm_name ipn dst_ip).exit_code = 0 := by
  unfold main_probe at h ⊢
  by_cases h1 : env.probe_create = false
  · simp [h1] at h
  · simp only [h1, if_false, after_exit_code]
    simp only [h1, if_false, after_calls, List.mem_append, List.mem_singleton, reduceCtorEq,
      false_or] at h
    rcases h with h | h
    · exact absurd h (pt_loop_not_mem_main_probe_calls _ _ _ _)
    · exact main_algorithm_exit_zero_of_pt_loop _ _ _ ret hret h

theorem main_address_exit_zero (env : environment_t) (algorithm_name dst_ip : String)
    (h : (main_address env algorithm_name dst_ip).exit_code = 0) :
    (∃ ip family, (family = AF_INET ∨ family = AF_INET6)
        ∧ call_t.address_guess_family ip family
          ∈ (main_address env algorithm_name dst_ip).calls)
    ∧ (∃ ip family, call_t.address_from_string family ip 0
        ∈ (main_address env algorithm_name dst_ip).calls)
    ∧ call_t.address_to_string 0 ∈ (main_address env algorithm_name dst_ip).calls
    ∧ ∃ ipn ip, (main_address env algorithm_name dst_ip).exit_code
          = (main_probe env algorithm_name ipn ip).exit_code
        ∧ ∀ c ∈ (main_probe env algorithm_name ipn ip).calls,
            c ∈ (main_address env algorithm_name dst_ip).calls := by
  unfold main_address at h ⊢
  dsimp only at h ⊢
  generalize env.address_guess_family dst_ip = family at h ⊢
  generalize env.address_from_string family dst_ip = r1 at h ⊢
  generalize env.address_to_string family dst_ip = r2 at h ⊢
  by_cases h4 : family ≠ AF_INET ∧ family ≠ AF_INET6
  · simp [h4, EXIT_FAILURE] at h
  by_cases h5 : r1 ≠ 0
  · simp [h4, h5, EXIT_FAILURE] at h
  by_cases h6 : r2.1 ≠ 0
  · simp [h4, h5, h6, EXIT_FAILURE] at h
  simp only [ne_eq, not_not] at h5 h6
  have hfam : family = AF_INET ∨ family = AF_INET6 := by
    by_contra hc
    exact h4 (by simpa [not_or] using hc)
  rw [if_neg h4, if_neg (not_not.mpr h5), if_neg (not_not.mpr h6)]
  refine ⟨⟨dst_ip, family, hfam, mem_after_left _ (by simp)⟩,
    ⟨dst_ip, family, mem_after_right _ (mem_after_left _ (by simp [h5]))⟩,
    mem_after_right _ (mem_after_right _ (mem_after_left _ (by simp [h6]))),
    _, _, rfl, ?_⟩
  intro c hc
  exact mem_after_right _ (mem_after_right _ (mem_after_right _ hc))

theorem main_address_exit_zero_of_pt_loop (env : environment_t)
    (algorithm_name dst_ip : String) (ret : Int) (hret : 0 ≤ ret)
    (h : call_t.pt_loop ret ∈ (main_address env algorithm_name dst_ip).calls) :
    (main_address env algorithm_name dst_ip).exit_code = 0 := by
  unfold main_address at h ⊢
  dsimp only at h ⊢
  generalize env.address_guess_family dst_ip = family at h ⊢
  generalize env.address_from_string family dst_ip = r1 at h ⊢
  generalize env.address_to_string family dst_ip = r2 at h ⊢
  by_cases h4 : family ≠ AF_INET ∧ family ≠ AF_INET6
  · simp [h4] at h
  by_cases h5 : r1 ≠ 0
  · simp [h4, h5] at h
  by_cases h6 : r2.1 ≠ 0
  · simp [h4, h5, h6] at h
  simp only [h4, h5, h6, if_false, after_exit_code]
  simp only [h4, h5, h6, if_false, after_calls, List.mem_append, List.mem_singleton,
    List.mem_cons, reduceCtorEq, false_or, List.mem_nil_iff, or_false] at h
  exact main_probe_exit_zero_of_pt_loop _ _ _ _ ret hret h

theorem main_from_exit_code_zero_iff (algorithm_name : String) (env : environment_t) :
    (main_from algorithm_name env).exit_code = 0 ↔ steps_succeed (main_from algorithm_name env) := by
  unfold steps_succeed
  constructor
  · intro h
    unfold main_from at h ⊢
    by_cases h1 : env.init_options = false
    · simp [h1, EXIT_FAILURE] at h
    by_cases h2 : env.opt_parse ≠ 1
    · simp [h1, h2, EXIT_FAILURE] at h
    by_cases h3 : (env.options_mda_get_is_set && algorithm_name != "mda") = true
    · simp [h1, h2, h3, EXIT_FAILURE] at h
    rw [if_neg h1, if_neg h2, if_neg h3] at h ⊢
    simp only [after_exit_code] at h
    obtain ⟨⟨ip1, f1, hf1, a1⟩, ⟨ip2, f2, a2⟩, a3, ipn, ip, he, hsub⟩ :=
      main_address_exit_zero _ _ _ h
    obtain ⟨b1, ⟨ns, b2⟩, ⟨fs, b3⟩, b4, ⟨n, o, p, b5⟩, ret, hret, b6⟩ :=
      main_probe_exit_zero env algorithm_name ipn ip (he ▸ h)
    simp only [Bool.not_eq_false, ne_eq, not_not] at h1 h2
    have lift : ∀ c, c ∈ (main_address env algorithm_name (env.argv.getLastD "")).calls →
        c ∈ (run_t.after [call_t.init_options env.init_options]
          (run_t.after [call_t.opt_options1st, call_t.opt_parse env.opt_parse]
            (run_t.after [call_t.options_mda_get_is_set env.options_mda_get_is_set]
              (main_address env algorithm_name (env.argv.getLastD ""))))).calls :=
      fun c hc => mem_after_right _ (mem_after_right _ (mem_after_right _ hc))
    exact ⟨mem_after_left _ (by simp [h1]),
      mem_after_right _ (mem_after_left _ (by simp [h2])),
      ⟨ip1, f1, hf1, lift _ a1⟩, ⟨ip2, f2, lift _ a2⟩, lift _ a3, lift _ (hsub _ b1),
      ⟨ns, lift _ (hsub _ b2)⟩, ⟨fs, lift _ (hsub _ b3)⟩, lift _ (hsub _ b4),
      ⟨n, o, p, lift _ (hsub _ b5)⟩, ret, hret, lift _ (hsub _ b6)⟩
  · rintro ⟨-, -, -, -, -, -, -, -, -, -, ret, hret, hmem⟩
    unfold main_from at hmem ⊢
    by_cases h1 : env.init_options = false
    · simp [h1] at hmem
    by_cases h2 : env.opt_parse ≠ 1
    · simp [h1, h2] at hmem
    by_cases h3 : (env.options_mda_get_is_set && algorithm_name != "mda") = true
    · simp [h1, h2, h3] at hmem
    simp only [h1, h2, h3, if_false, after_exit_code]
    simp only [h1, h2, h3, if_false, after_calls, List.mem_append, List.mem_singleton,
      List.mem_cons, reduceCtorEq, false_or, List.mem_nil_iff, or_false] at hmem
    exact main_address_exit_zero_of_pt_loop _ _ _ ret hret hmem

theorem main_loop_exit_code_cases (env : environment_t) (name : String)
    (options : algorithm_options_t) (probe : probe_t) :
    (main_loop env name options probe).exit_code = 0
      ∨ (main_loop env name options probe).exit_code = 1 := by
  unfold main_loop
  split_ifs <;> simp [EXIT_FAILURE, EXIT_SUCCESS]

theorem main_algorithm_exit_code_cases (env : environment_t) (algorithm_name : String)
    (probe : probe_t) :
    (main_algorithm env algorithm_name probe).exit_code = 0
      ∨ (main_algorithm env algorithm_name probe).exit_code = 1 := by
  unfold main_algorithm
  split_ifs
  · exact main_loop_exit_code_cases _ _ _ _
  · exact main_loop_exit_code_cases _ _ _ _
  · exact main_loop_exit_code_cases _ _ _ _
  · simp [EXIT_FAILURE]

theorem main_probe_exit_code_cases (env : environment_t)
    (algorithm_name ipn dst_ip : String) :
    (main_probe env algorithm_name ipn dst_ip).exit_code = 0
      ∨ (main_probe env algorithm_name ipn dst_ip).exit_code = 1 := by
  unfold main_probe
  split_ifs
  · simp [EXIT_FAILURE]
  · exact main_algorithm_exit_code_cases _ _ _

theorem main_address_exit_code_cases (env : environment_t) (algorithm_name dst_ip : String) :
    (main_address env algorithm_name dst_ip).exit_code = 0
      ∨ (main_address env algorithm_name dst_ip).exit_code = 1 := by
  unfold main_address
  dsimp only
  split_ifs
  · simp [EXIT_FAILURE]
  · simp [EXIT_FAILURE]
  · simp [EXIT_FAILURE]
  all_goals exact main_probe_exit_code_cases _ _ _ _

theorem main_from_exit_code_cases (algorithm_name : String) (env : environment_t) :
    (main_from algorithm_name env).exit_code = 0
      ∨ (main_from algorithm_name env).exit_code = 1 := by
  unfold main_from
  split_ifs
  · simp [EXIT_FAILURE]
  · simp [EXIT_FAILURE]
  · simp [EXIT_FAILURE]
  · exact main_address_exit_code_cases _ _ _

/-- C7: the exit status of `main` is 0 exactly when, in the run, `init_options`
succeeds, `opt_parse` returns 1, the family selected is `AF_INET` or `AF_INET6`, the two
address conversions return 0, `probe_create` succeeds and the skeleton is configured,
`pt_loop_create` and `pt_algorithm_add` succeed, and `pt_loop` returns a non-negative
value; in every other run the status is `EXIT_FAILURE`. -/
theorem main_exit_code_zero_iff (env : environment_t) :
    ((main env).exit_code = 0 ↔ steps_succeed (main env))
    ∧ ((main env).exit_code = 0 ∨ (main env).exit_code = 1) := by
  exact ⟨main_from_exit_code_zero_iff _ env, main_from_exit_code_cases _ env⟩

theorem key_dst_ip : strdup (c_str "dst_ip") = [100, 115, 116, 95, 105, 112] := by decide

theorem key_dst_port :
    strdup (c_str "dst_port") = [100, 115, 116, 95, 112, 111, 114, 116] := by decide

theorem key_src_port :
    strdup (c_str "src_port") = [115, 114, 99, 95, 112, 111, 114, 116] := by decide

/-- The destination port of the skeleton that `main` configures. -/
theorem main_probe_skeleton_dst_port (g : globals_t) (ipn dst_ip : String) :
    probe_field_value (main_probe_skeleton g ipn dst_ip) "dst_port"
      = some (value_t.int16
          (if g.is_udp = true ∧ g.dst_port.getD 3 0 = 0 then 53
           else Int.toNat (g.dst_port.getD 0 0 % 65536))) := by
  unfold main_probe_skeleton
  by_cases h : g.is_udp = true ∧ g.dst_port.getD 3 0 = 0
  · have h' : (g.is_udp && g.dst_port.getD 3 0 == 0) = true := by simpa using h
    rw [if_pos h', if_pos h]
    simp [probe_field_value, probe_set_fields, probe_set_field, probe_payload_resize,
      probe_set_protocols, probe_create, STR, I16, key_dst_ip, key_dst_port, key_src_port]
  · have h' : ¬ (g.is_udp && g.dst_port.getD 3 0 == 0) = true := by simpa using h
    rw [if_neg h', if_neg h]
    simp [probe_field_value, probe_set_fields, probe_set_field, probe_payload_resize,
      probe_set_protocols, probe_create, STR, I16, key_dst_ip, key_dst_port, key_src_port]

theorem main_loop_skeleton (env : environment_t) (name : String)
    (options : algorithm_options_t) (probe p : probe_t)
    (hp : p ∈ (main_loop env name options probe).calls.filterMap call_t.skeleton) :
    p = probe := by
  unfold main_loop at hp
  split_ifs at hp <;>
    simp [List.filterMap_append, List.filterMap_cons, call_t.skeleton] at hp <;>
    exact hp

theorem main_algorithm_skeleton (env : environment_t) (algorithm_name : String)
    (probe p : probe_t)
    (hp : p ∈ (main_algorithm env algorithm_name probe).calls.filterMap call_t.skeleton) :
    p = probe := by
  unfold main_algorithm at hp
  split_ifs at hp
  · exact main_loop_skeleton _ _ _ _ _ hp
  · exact main_loop_skeleton _ _ _ _ _ hp
  · simp only [after_calls, List.filterMap_append, List.filterMap_cons, call_t.skeleton,
      List.filterMap_nil, List.nil_append] at hp
    exact main_loop_skeleton _ _ _ _ _ hp
  · simp [List.filterMap_cons, call_t.skeleton] at hp

theorem main_probe_calls_skeleton (g : globals_t) (ipn dst_ip : String) (p : probe_t)
    (hp : p ∈ (main_probe_calls g ipn dst_ip).filterMap call_t.skeleton) :
    p = main_probe_skeleton g ipn dst_ip := by
  unfold main_probe_calls at hp
  split_ifs at hp <;>
    simp [List.filterMap_append, List.filterMap_cons, call_t.skeleton] at hp <;>
    exact hp

theorem main_probe_skeleton_of_call (env : environment_t)
    (algorithm_name ipn dst_ip : String) (p : probe_t)
    (hp : p ∈ (main_probe env algorithm_name ipn dst_ip).calls.filterMap call_t.skeleton) :
    p = main_probe_skeleton env.globals ipn dst_ip := by
  unfold main_probe at hp
  split_ifs at hp
  · simp [List.filterMap_cons, call_t.skeleton] at hp
  · simp only [after_calls, List.filterMap_append, List.filterMap_cons, call_t.skeleton,
      List.filterMap_nil, List.nil_append, List.mem_append] at hp
    rcases hp with hp | hp
    · exact main_probe_calls_skeleton _ _ _ _ hp
    · exact main_algorithm_skeleton _ _ _ _ hp

theorem main_address_skeleton_of_call (env : environment_t)
    (algorithm_name dst_ip : String) (p : probe_t)
    (hp : p ∈ (main_address env algorithm_name dst_ip).calls.filterMap call_t.skeleton) :
    ∃ ipn ip, p = main_probe_skeleton env.globals ipn ip := by
  unfold main_address at hp
  dsimp only at hp
  split_ifs at hp
  · simp [List.filterMap_cons, call_t.skeleton] at hp
  · simp [List.filterMap_cons, call_t.skeleton] at hp
  · simp [List.filterMap_cons, call_t.skeleton] at hp
  all_goals
    simp only [after_calls, List.filterMap_append, List.filterMap_cons, call_t.skeleton,
      List.filterMap_nil, List.nil_append] at hp
    exact ⟨_, _, main_probe_skeleton_of_call _ _ _ _ _ hp⟩

theorem main_from_skeleton_of_call (env : environment_t) (algorithm_name : String)
    (p : probe_t)
    (hp : p ∈ (main_from algorithm_name env).calls.filterMap call_t.skeleton) :
    ∃ ipn ip, p = main_probe_skeleton env.globals ipn ip := by
  unfold main_from at hp
  split_ifs at hp
  · simp [List.filterMap_cons, call_t.skeleton] at hp
  · simp [List.filterMap_cons, call_t.skeleton] at hp
  · simp [List.filterMap_cons, call_t.skeleton] at hp
  · simp only [after_calls, List.filterMap_append, List.filterMap_cons, call_t.skeleton,
      List.filterMap_nil, List.nil_append] at hp
    exact main_address_skeleton_of_call _ _ _ _ hp

theorem dst_port_writes_append (a b : List call_t) :
    dst_port_writes (a ++ b) = dst_port_writes a ++ dst_port_writes b := by
  induction a with
  | nil => rfl
  | cons c rest ih =>
      cases c <;> simp [dst_port_writes, ih]

/-- The writes of the destination port in the configuration of the skeleton: the value
`dst_port[0]`, then 53 when `is_udp` is set and the flag `dst_port[3]` is 0. -/
theorem dst_port_writes_main_probe_calls (g : globals_t) (ipn dst_ip : String) :
    dst_port_writes (main_probe_calls g ipn dst_ip)
      = value_t.int16 (Int.toNat (g.dst_port.getD 0 0 % 65536))
        :: (if g.is_udp = true ∧ g.dst_port.getD 3 0 = 0 then [value_t.int16 53] else []) := by
  unfold main_probe_calls
  by_cases h : g.is_udp = true ∧ g.dst_port.getD 3 0 = 0
  · have h' : (g.is_udp && g.dst_port.getD 3 0 == 0) = true := by simpa using h
    rw [if_pos h', if_pos h]
    simp [dst_port_writes, STR, I16, key_dst_ip, key_dst_port, key_src_port]
  · have h' : ¬ (g.is_udp && g.dst_port.getD 3 0 == 0) = true := by simpa using h
    rw [if_neg h', if_neg h]
    simp [dst_port_writes, STR, I16, key_dst_ip, key_dst_port, key_src_port]

theorem dst_port_writes_main_loop (env : environment_t) (name : String)
    (options : algorithm_options_t) (probe : probe_t) :
    dst_port_writes (main_loop env name options probe).calls = [] := by
  unfold main_loop
  split_ifs <;> simp [dst_port_writes]

theorem dst_port_writes_main_algorithm (env : environment_t) (algorithm_name : String)
    (probe : probe_t) :
    dst_port_writes (main_algorithm env algorithm_name probe).calls = [] := by
  unfold main_algorithm
  split_ifs
  · exact dst_port_writes_main_loop _ _ _ _
  · exact dst_port_writes_main_loop _ _ _ _
  · rw [after_calls, dst_port_writes_append, dst_port_writes_main_loop]
    rfl
  · rfl

theorem dst_port_writes_main_probe (env : environment_t)
    (algorithm_name ipn dst_ip : String) :
    dst_port_writes (main_probe env algorithm_name ipn dst_ip).calls = []
      ∨ dst_port_writes (main_probe env algorithm_name ipn dst_ip).calls
          = dst_port_writes (main_probe_calls env.globals ipn dst_ip) := by
  unfold main_probe
  split_ifs
  · left; simp [dst_port_writes]
  · right
    rw [after_calls, after_calls, dst_port_writes_append, dst_port_writes_append,
      dst_port_writes_main_algorithm, List.append_nil]
    rfl

theorem dst_port_writes_main_address (env : environment_t)
    (algorithm_name dst_ip : String) :
    dst_port_writes (main_address env algorithm_name dst_ip).calls = []
      ∨ ∃ ipn ip, dst_port_writes (main_address env algorithm_name dst_ip).calls
          = dst_port_writes (main_probe_calls env.globals ipn ip) := by
  unfold main_address
  dsimp only
  split_ifs
  · left; simp [dst_port_writes]
  · left; simp [dst_port_writes]
  · left; simp [dst_port_writes]
  all_goals
    rw [after_calls, after_calls, after_calls, dst_port_writes_append,
      dst_port_writes_append, dst_port_writes_append]
    rcases dst_port_writes_main_probe env algorithm_name _ _ with h | h
    · left; rw [h]; rfl
    · right; exact ⟨_, _, by rw [h]; rfl⟩

theorem dst_port_writes_main_from (algorithm_name : String) (env : environment_t) :
    dst_port_writes (main_from algorithm_name env).calls = []
      ∨ ∃ ipn ip, dst_port_writes (main_from algorithm_name env).calls
          = dst_port_writes (main_probe_calls env.globals ipn ip) := by
  unfold main_from
  split_ifs
  · left; simp [dst_port_writes]
  · left; simp [dst_port_writes]
  · left; simp [dst_port_writes]
  · rw [after_calls, after_calls, after_calls, dst_port_writes_append,
      dst_port_writes_append, dst_port_writes_append]
    rcases dst_port_writes_main_address env algorithm_name (env.argv.getLastD "")
      with h | ⟨ipn, ip, h⟩
    · left; rw [h]; rfl
    · right; exact ⟨ipn, ip, by rw [h]; rfl⟩

/-- C8: the destination port that `main` writes into the probe skeleton is 53 when
`is_udp` is set and the flag `dst_port[3]` is 0, and the value `dst_port[0]` in every
other case: this is the last value written for the key "dst_port" by the calls of
`probe_set_fields`, and the value held by the skeleton that `main` dumps and hands to
`pt_algorithm_add`. In the static initialiser `dst_port[0]` is 3000 and the flag is 0. -/
theorem main_dst_port (algorithm_name : String) (env : environment_t) (probe : probe_t)
    (c : call_t) (written : value_t) (hc : c ∈ (main_from algorithm_name env).calls)
    (hprobe : c.skeleton = some probe)
    (hwritten : (dst_port_writes (main_from algorithm_name env).calls).getLast? = some written)
    (hrange : 0 ≤ env.globals.dst_port.getD 0 0
      ∧ env.globals.dst_port.getD 0 0 ≤ UINT16_MAX) :
    (∃ port : Nat, written = value_t.int16 port
      ∧ probe_field_value probe "dst_port" = some (value_t.int16 port)
      ∧ (port : Int) =
          if env.globals.is_udp = true ∧ env.globals.dst_port.getD 3 0 = 0 then 53
          else env.globals.dst_port.getD 0 0)
    ∧ globals_init.dst_port.getD 0 0 = 3000
    ∧ globals_init.dst_port.getD 3 0 = 0 := by
  obtain ⟨ipn, ip, rfl⟩ := main_from_skeleton_of_call env algorithm_name probe
    (List.mem_filterMap.mpr ⟨c, hc, hprobe⟩)
  have hw : written = value_t.int16
      (if env.globals.is_udp = true ∧ env.globals.dst_port.getD 3 0 = 0 then 53
       else Int.toNat (env.globals.dst_port.getD 0 0 % 65536)) := by
    rcases dst_port_writes_main_from algorithm_name env with h | ⟨ipn2, ip2, h⟩
    · rw [h] at hwritten
      simp at hwritten
    · rw [h, dst_port_writes_main_probe_calls] at hwritten
      split_ifs at hwritten ⊢ <;> simpa using hwritten.symm
  refine ⟨⟨_, hw, main_probe_skeleton_dst_port _ _ _, ?_⟩, by decide, by decide⟩
  unfold UINT16_MAX at hrange
  split_ifs
  · rfl
  · rw [Int.toNat_of_nonneg (Int.emod_nonneg _ (by decide))]
    exact Int.emod_eq_of_lt hrange.1 (by omega)

/-- In the environment where every call succeeds, `main` exits with the status 0. -/
theorem main_env_ok_exit_code (argv : List String) (g : globals_t) :
    (main (env_ok argv g AF_INET)).exit_code = 0 := by
  simp [main, main_from, main_address, main_probe, main_algorithm, main_loop, env_ok,
    algorithm_names, AF_INET, AF_INET6, EXIT_SUCCESS]

theorem main_env_ok_dumps (argv : List String) (g : globals_t) :
    call_t.probe_dump (main_probe_skeleton g "ipv4" (argv.getLastD ""))
      ∈ (main (env_ok argv g AF_INET)).calls := by
  simp [main, main_from, main_address, main_probe, main_algorithm, main_loop, env_ok,
    algorithm_names, AF_INET, AF_INET6, main_probe_calls]

theorem main_env_udp_port_80_writes :
    (dst_port_writes (main_from "paris-traceroute" env_udp_port_80).calls).getLast?
      = some (value_t.int16 80) := by
  decide

/-- C8, at the command line `paris-traceroute -U -d 80 8.8.8.8`: the port of the skeleton
is 80, the value given with `-d`. -/
theorem main_dst_port_witness :
    call_t.probe_dump (main_probe_skeleton env_udp_port_80.globals "ipv4" "8.8.8.8")
        ∈ (main_from "paris-traceroute" env_udp_port_80).calls
    ∧ (dst_port_writes (main_from "paris-traceroute" env_udp_port_80).calls).getLast?
        = some (value_t.int16 80)
    ∧ (0 ≤ env_udp_port_80.globals.dst_port.getD 0 0
        ∧ env_udp_port_80.globals.dst_port.getD 0 0 ≤ UINT16_MAX)
    ∧ ((∃ port : Nat, value_t.int16 80 = value_t.int16 port
          ∧ probe_field_value (main_probe_skeleton env_udp_port_80.globals "ipv4" "8.8.8.8")
            "dst_port" = some (value_t.int16 port)
          ∧ (port : Int) =
              if env_udp_port_80.globals.is_udp = true
                  ∧ env_udp_port_80.globals.dst_port.getD 3 0 = 0 then 53
              else env_udp_port_80.globals.dst_port.getD 0 0)
        ∧ globals_init.dst_port.getD 0 0 = 3000
        ∧ globals_init.dst_port.getD 3 0 = 0) :=
  ⟨main_env_ok_dumps _ _, main_env_udp_port_80_writes, by decide,
    main_dst_port "paris-traceroute" env_udp_port_80
      (main_probe_skeleton env_udp_port_80.globals "ipv4" "8.8.8.8")
      (call_t.probe_dump (main_probe_skeleton env_udp_port_80.globals "ipv4" "8.8.8.8"))
      (value_t.int16 80) (main_env_ok_dumps _ _) rfl main_env_udp_port_80_writes
      (by decide)⟩

/-- With `-U` and without `-d` the port of the skeleton is 53; with `-U -d 80` it is 80;
without either it is 3000. -/
theorem main_dst_port_examples :
    probe_field_value (main_probe_skeleton env_udp.globals "ipv4" "8.8.8.8") "dst_port"
        = some (value_t.int16 53)
    ∧ probe_field_value (main_probe_skeleton env_udp_port_80.globals "ipv4" "8.8.8.8")
        "dst_port" = some (value_t.int16 80)
    ∧ probe_field_value (main_probe_skeleton globals_init "ipv4" "8.8.8.8") "dst_port"
        = some (value_t.int16 3000) := by
  refine ⟨?_, ?_, ?_⟩ <;> rw [main_probe_skeleton_dst_port] <;> decide

/-- The flags `is_ipv4` and `is_ipv6` have no effect on a run of `main`. -/
theorem main_ignores_family_flags (env : environment_t) (v4 v6 : Bool) :
    main { env with globals := { env.globals with is_ipv4 := v4, is_ipv6 := v6 } }
      = main env := by
  simp [main, main_from, main_address, main_probe, main_algorithm, main_loop,
    main_probe_calls, main_probe_skeleton]

/-- C9: for the command line `paris-traceroute -6 8.8.8.8`, whose destination
`address_guess_family` finds to be `AF_INET`, the IP layer installed is "ipv4" whatever
the flags hold after the options are read; for `paris-traceroute -4 ::1`, found to be
`AF_INET6`, it is "ipv6". The family found for the destination decides, not the flag. -/
theorem main_ip_layer_follows_guess (g : globals_t) :
    installed_protocols (main (env_ok ["paris-traceroute", "-6", "8.8.8.8"] g AF_INET))
        = some ["ipv4", "udp"]
    ∧ installed_protocols (main (env_ok ["paris-traceroute", "-4", "::1"] g AF_INET6))
        = some ["ipv6", "udp"] := by
  constructor <;>
    simp [installed_protocols, main, main_from, main_address, main_probe, main_algorithm,
      main_loop, env_ok, algorithm_names, protocol_names, AF_INET, AF_INET6,
      main_probe_calls, List.findSome?]

/-! ## Theorems: the variable `loop` of the main program -/

theorem pt_loop_free_uninitialized_not_mem_main_loop (env : environment_t) (name : String)
    (options : algorithm_options_t) (probe : probe_t) :
    call_t.pt_loop_free loop_var_t.uninitialized ∉ (main_loop env name options probe).calls := by
  unfold main_loop
  split_ifs <;> simp

theorem probe_create_not_mem_main_loop (env : environment_t) (name : String)
    (options : algorithm_options_t) (probe : probe_t) (ok : Bool) :
    call_t.probe_create ok ∉ (main_loop env name options probe).calls := by
  unfold main_loop
  split_ifs <;> simp

theorem probe_create_not_mem_main_algorithm (env : environment_t) (algorithm_name : String)
    (probe : probe_t) (ok : Bool) :
    call_t.probe_create ok ∉ (main_algorithm env algorithm_name probe).calls := by
  unfold main_algorithm
  split_ifs
  · exact probe_create_not_mem_main_loop _ _ _ _ _
  · exact probe_create_not_mem_main_loop _ _ _ _ _
  · rw [after_calls, List.mem_append, not_or]
    exact ⟨by simp, probe_create_not_mem_main_loop _ _ _ _ _⟩
  · simp

theorem not_mem_main_probe_calls_of_skeleton_none (g : globals_t) (ipn dst_ip : String)
    (c : call_t) (hc : c = call_t.pt_loop_free loop_var_t.uninitialized
      ∨ c = call_t.probe_create false) :
    c ∉ main_probe_calls g ipn dst_ip := by
  unfold main_probe_calls
  rcases hc with rfl | rfl <;> split_ifs <;> simp

/-- A loop that `pt_loop_free` receives in the end of `main` has been created: the call
follows a successful `pt_loop_create`. -/
theorem main_loop_frees_created_loop (env : environment_t) (name : String)
    (options : algorithm_options_t) (probe : probe_t) (loop : loop_var_t)
    (h : call_t.pt_loop_free loop ∈ (main_loop env name options probe).calls) :
    loop = loop_var_t.created
      ∧ call_t.pt_loop_create true ∈ (main_loop env name options probe).calls := by
  unfold main_loop at h ⊢
  by_cases h1 : env.pt_loop_create = false
  · simp [h1] at h
  · simp only [Bool.not_eq_false] at h1
    rw [h1] at h ⊢
    refine ⟨?_, mem_after_left _ (by simp)⟩
    split_ifs at h <;> simp at h <;> exact h

/-- With the algorithm name "paris-traceroute" the choice of the options never frees the
loop before it is created. -/
theorem pt_loop_free_uninitialized_not_mem_main_algorithm (env : environment_t)
    (probe : probe_t) :
    call_t.pt_loop_free loop_var_t.uninitialized
      ∉ (main_algorithm env "paris-traceroute" probe).calls := by
  unfold main_algorithm
  rw [if_pos rfl]
  exact pt_loop_free_uninitialized_not_mem_main_loop _ _ _ _

theorem main_probe_unassigned_iff (env : environment_t) (ipn dst_ip : String) :
    call_t.pt_loop_free loop_var_t.uninitialized
        ∈ (main_probe env "paris-traceroute" ipn dst_ip).calls
      ↔ call_t.probe_create false ∈ (main_probe env "paris-traceroute" ipn dst_ip).calls := by
  unfold main_probe
  by_cases h : env.probe_create = false
  · simp [h]
  · rw [if_neg h]
    simp only [Bool.not_eq_false] at h
    simp only [h, after_calls, List.mem_append, List.mem_singleton, reduceCtorEq, false_or,
      call_t.probe_create.injEq, Bool.false_eq_true]
    constructor
    · rintro (h1 | h1)
      · exact absurd h1 (not_mem_main_probe_calls_of_skeleton_none _ _ _ _ (Or.inl rfl))
      · exact absurd h1 (pt_loop_free_uninitialized_not_mem_main_algorithm _ _)
    · rintro (h1 | h1)
      · exact absurd h1 (not_mem_main_probe_calls_of_skeleton_none _ _ _ _ (Or.inr rfl))
      · exact absurd h1 (probe_create_not_mem_main_algorithm _ _ _ _)

theorem main_address_unassigned_iff (env : environment_t) (dst_ip : String) :
    call_t.pt_loop_free loop_var_t.uninitialized
        ∈ (main_address env "paris-traceroute" dst_ip).calls
      ↔ call_t.probe_create false ∈ (main_address env "paris-traceroute" dst_ip).calls := by
  unfold main_address
  dsimp only
  split_ifs
  · simp
  · simp
  · simp
  all_goals
    simp only [after_calls, List.mem_append, List.mem_singleton, List.mem_cons,
      reduceCtorEq, false_or, List.mem_nil_iff, or_false]
    exact main_probe_unassigned_iff _ _ _

/-- In a run of `main`, `pt_loop_free` receives the variable `loop` before any
assignment exactly when `probe_create` has failed. -/
theorem main_unassigned_loop_iff (env : environment_t) :
    call_t.pt_loop_free loop_var_t.uninitialized ∈ (main env).calls
      ↔ call_t.probe_create false ∈ (main env).calls := by
  have hname : algorithm_names.getD 0 "" = "paris-traceroute" := by decide
  unfold main
  rw [hname]
  unfold main_from
  split_ifs
  · simp
  · simp
  · simp
  · simp only [after_calls, List.mem_append, List.mem_singleton, List.mem_cons,
      reduceCtorEq, false_or, List.mem_nil_iff, or_false]
    exact main_address_unassigned_iff _ _

/-- With an initial algorithm name that is neither "paris-traceroute" nor "mda" and no
option of mda, the body of `main` reaches `ERR_UNKNOWN_ALGORITHM`: it frees the probe
and hands the unassigned `loop` to `pt_loop_free`. -/
theorem main_from_unknown_algorithm :
    List.getLast?
        (main_from "exhaustive"
          (env_ok ["paris-traceroute", "8.8.8.8"] globals_init AF_INET)).calls
      = some (call_t.pt_loop_free loop_var_t.uninitialized)
    ∧ call_t.pt_loop_create true
        ∉ (main_from "exhaustive"
            (env_ok ["paris-traceroute", "8.8.8.8"] globals_init AF_INET)).calls := by
  decide

/-- C11: the run of `main` for `paris-traceroute 8.8.8.8` in which `probe_create` fails:
the jump to `ERR_PROBE_SKEL` calls `pt_loop_free` on the variable `loop` before any
assignment, in a run that never calls `pt_loop_create`. -/
theorem main_frees_unassigned_loop :
    main env_probe_create_fails
        = { calls :=
              [call_t.init_options true, call_t.opt_options1st, call_t.opt_parse 1,
                call_t.options_mda_get_is_set false,
                call_t.address_guess_family "8.8.8.8" AF_INET,
                call_t.address_from_string AF_INET "8.8.8.8" 0, call_t.address_dump,
                call_t.address_to_string 0, call_t.probe_create false,
                call_t.pt_loop_free loop_var_t.uninitialized]
            exit_code := EXIT_FAILURE }
    ∧ call_t.pt_loop_free loop_var_t.uninitialized ∈ (main env_probe_create_fails).calls
    ∧ call_t.pt_loop_create true ∉ (main env_probe_create_fails).calls
    ∧ call_t.pt_loop_create false ∉ (main env_probe_create_fails).calls := by
  decide

end Paris
